import Mathlib

/-!
Verification of the task-management HTTP service (`src/main.py`) against its
natural-language specification.

The embedding is shallow: the `tasks` and `users` tables become lists of
records, timestamps become natural numbers, each request handler becomes a
pure function from the database state (plus the parsed request data) to a
response together with the successor database state.  SQL `NULL` is `Option`,
an HTTP error response is the `Except.error` branch carrying the status code.
-/

namespace TaskAPI

/-- One row of the `tasks` table (schema in `init_db`): `due_date` is a
nullable timestamp, `description` nullable text. -/
structure TaskRow where
  id : Nat
  user_id : Nat
  title : String
  description : Option String
  priority : String
  status : String
  due_date : Option Nat
  created_at : Nat
  updated_at : Nat
deriving DecidableEq, Repr

/-- One row of the `users` table. -/
structure UserRow where
  id : Nat
  email : String
  username : String
  full_name : Option String
  hashed_password : String
  is_active : Bool
  created_at : Nat
deriving DecidableEq, Repr

/-- The SQL predicate `id = %s AND user_id = %s` shared by the
get/update/delete task handlers. -/
def taskMatches (task_id uid : Nat) (r : TaskRow) : Bool :=
  r.id == task_id && r.user_id == uid

/-- The `SELECT * FROM tasks WHERE id = %s AND user_id = %s` + `fetchone()`
pair used by `get_task` and by the ownership check of `update_task`. -/
def findTask (db : List TaskRow) (task_id uid : Nat) : Option TaskRow :=
  db.find? (taskMatches task_id uid)

/-- Handler `GET /tasks/{task_id}` (`get_task` in `src/main.py`): a missing
row — nonexistent id or a row owned by someone else — is a 404. -/
def get_task (db : List TaskRow) (task_id uid : Nat) : Except Nat TaskRow :=
  match findTask db task_id uid with
  | some t => .ok t
  | none => .error 404

/-- Body of `PUT /tasks/{task_id}` as the handler receives it from pydantic
(`TaskUpdate` in `src/main.py`): every field optional, defaulting to `None`. -/
structure TaskUpdate where
  title : Option String := none
  description : Option String := none
  priority : Option String := none
  status : Option String := none
  due_date : Option Nat := none
deriving DecidableEq, Repr

/-- The list of `SET` clauses built by `update_task`: one clause per field
whose value `is not None`, in source order, followed unconditionally by
`updated_at = CURRENT_TIMESTAMP`. -/
def updateClauses (u : TaskUpdate) (now : Nat) : List (TaskRow → TaskRow) :=
  (match u.title with
   | some v => [fun t => { t with title := v }]
   | none => []) ++
  (match u.description with
   | some v => [fun t => { t with description := some v }]
   | none => []) ++
  (match u.priority with
   | some v => [fun t => { t with priority := v }]
   | none => []) ++
  (match u.status with
   | some v => [fun t => { t with status := v }]
   | none => []) ++
  (match u.due_date with
   | some v => [fun t => { t with due_date := some v }]
   | none => []) ++
  [fun t => { t with updated_at := now }]

/-- Application of a list of `SET` clauses to a row, left to right. -/
def applySet (t : TaskRow) (clauses : List (TaskRow → TaskRow)) : TaskRow :=
  clauses.foldl (fun acc f => f acc) t

/-- Handler `PUT /tasks/{task_id}` (`update_task` in `src/main.py`):
ownership check by `findTask`, then `UPDATE ... WHERE id = %s AND
user_id = %s RETURNING *`.  Returns the response and the new table state. -/
def update_task (db : List TaskRow) (task_id uid : Nat) (u : TaskUpdate)
    (now : Nat) : Except Nat TaskRow × List TaskRow :=
  match findTask db task_id uid with
  | none => (.error 404, db)
  | some ex =>
      (.ok (applySet ex (updateClauses u now)),
       db.map (fun r =>
         if taskMatches task_id uid r then applySet r (updateClauses u now) else r))

/-- Handler `DELETE /tasks/{task_id}` (`delete_task` in `src/main.py`):
`DELETE ... WHERE id = %s AND user_id = %s RETURNING id`; 404 exactly when no
row was removed. -/
def delete_task (db : List TaskRow) (task_id uid : Nat) :
    Except Nat Unit × List TaskRow :=
  let remaining := db.filter (fun r => !taskMatches task_id uid r)
  if db.any (taskMatches task_id uid) then (.ok (), remaining)
  else (.error 404, remaining)

lemma findTask_eq_none_iff (db : List TaskRow) (tid uid : Nat) :
    findTask db tid uid = none ↔ ∀ r ∈ db, ¬(r.id = tid ∧ r.user_id = uid) := by
  unfold findTask
  rw [List.find?_eq_none]
  constructor
  · intro h r hr ⟨h1, h2⟩
    exact h r hr (by simp [taskMatches, h1, h2])
  · intro h r hr hm
    simp only [taskMatches, Bool.and_eq_true, beq_iff_eq] at hm
    exact h r hr hm

lemma no_match_of_other_user (db : List TaskRow) (t : TaskRow) (u : Nat)
    (hmem : t ∈ db) (howner : u ≠ t.user_id)
    (hnodup : (db.map TaskRow.id).Nodup) :
    ∀ r ∈ db, ¬(r.id = t.id ∧ r.user_id = u) := by
  intro r hr ⟨hid, huid⟩
  have : r = t := List.inj_on_of_nodup_map hnodup hr hmem hid
  exact howner (this ▸ huid).symm

lemma no_match_of_fresh (db : List TaskRow) (fresh u : Nat)
    (hfresh : ∀ r ∈ db, r.id ≠ fresh) :
    ∀ r ∈ db, ¬(r.id = fresh ∧ r.user_id = u) := by
  intro r hr ⟨hid, _⟩
  exact hfresh r hr hid

lemma handlers_404_of_no_match (db : List TaskRow) (tid uid : Nat)
    (upd : TaskUpdate) (now : Nat)
    (h : ∀ r ∈ db, ¬(r.id = tid ∧ r.user_id = uid)) :
    get_task db tid uid = .error 404 ∧
    update_task db tid uid upd now = (.error 404, db) ∧
    delete_task db tid uid = (.error 404, db) := by
  have hfind : findTask db tid uid = none := (findTask_eq_none_iff db tid uid).mpr h
  have hmatch : ∀ r ∈ db, taskMatches tid uid r = false := by
    intro r hr
    have := h r hr
    simp only [taskMatches, Bool.and_eq_false_iff, beq_eq_false_iff_ne, ne_eq]
    by_cases hid : r.id = tid
    · exact Or.inr (fun huid => this ⟨hid, huid⟩)
    · exact Or.inl hid
  refine ⟨?_, ?_, ?_⟩
  · simp [get_task, hfind]
  · simp [update_task, hfind]
  · have hany : db.any (taskMatches tid uid) = false := by
      rw [List.any_eq_false]
      intro r hr
      simp [hmatch r hr]
    have hfilter : db.filter (fun r => !taskMatches tid uid r) = db := by
      rw [List.filter_eq_self]
      intro r hr
      simp [hmatch r hr]
    simp [delete_task, hany, hfilter]

/-- C1: for a task `t` and an authenticated user `u` other than `t`'s owner,
`get`, `update` and `delete` on `t.id` produce exactly the outcome they
produce on an id `fresh` that exists in no row: a 404 response and an
unchanged table.  Ownership mismatch is indistinguishable from
non-existence. -/
theorem ownership_mismatch_indistinguishable_from_absence
    (db : List TaskRow) (t : TaskRow) (u fresh : Nat) (upd : TaskUpdate)
    (now : Nat)
    (hmem : t ∈ db) (howner : u ≠ t.user_id)
    (hnodup : (db.map TaskRow.id).Nodup)
    (hfresh : ∀ r ∈ db, r.id ≠ fresh) :
    (get_task db t.id u = .error 404 ∧ get_task db fresh u = .error 404) ∧
    (update_task db t.id u upd now = (.error 404, db) ∧
     update_task db fresh u upd now = (.error 404, db)) ∧
    (delete_task db t.id u = (.error 404, db) ∧
     delete_task db fresh u = (.error 404, db)) := by
  obtain ⟨g1, u1, d1⟩ := handlers_404_of_no_match db t.id u upd now
    (no_match_of_other_user db t u hmem howner hnodup)
  obtain ⟨g2, u2, d2⟩ := handlers_404_of_no_match db fresh u upd now
    (no_match_of_fresh db fresh u hfresh)
  exact ⟨⟨g1, g2⟩, ⟨u1, u2⟩, ⟨d1, d2⟩⟩

/-- Witness for C1 at a concrete database: one task with id 1 owned by
user 1, accessed by user 2 and via the absent id 99. -/
theorem ownership_mismatch_witness :
    (get_task [⟨1, 1, "a", none, "medium", "pending", none, 0, 0⟩] 1 2
        = .error 404 ∧
     get_task [⟨1, 1, "a", none, "medium", "pending", none, 0, 0⟩] 99 2
        = .error 404) ∧
    (update_task [⟨1, 1, "a", none, "medium", "pending", none, 0, 0⟩] 1 2
        ⟨none, none, none, none, none⟩ 5
        = (.error 404, [⟨1, 1, "a", none, "medium", "pending", none, 0, 0⟩]) ∧
     update_task [⟨1, 1, "a", none, "medium", "pending", none, 0, 0⟩] 99 2
        ⟨none, none, none, none, none⟩ 5
        = (.error 404, [⟨1, 1, "a", none, "medium", "pending", none, 0, 0⟩])) ∧
    (delete_task [⟨1, 1, "a", none, "medium", "pending", none, 0, 0⟩] 1 2
        = (.error 404, [⟨1, 1, "a", none, "medium", "pending", none, 0, 0⟩]) ∧
     delete_task [⟨1, 1, "a", none, "medium", "pending", none, 0, 0⟩] 99 2
        = (.error 404, [⟨1, 1, "a", none, "medium", "pending", none, 0, 0⟩])) :=
  ownership_mismatch_indistinguishable_from_absence
    [⟨1, 1, "a", none, "medium", "pending", none, 0, 0⟩]
    ⟨1, 1, "a", none, "medium", "pending", none, 0, 0⟩ 2 99
    ⟨none, none, none, none, none⟩ 5
    (by decide) (by decide) (by decide) (by decide)

/-- C2: on a task found by the ownership check, `update_task` answers 200
with the row obtained by applying exactly the supplied `SET` clauses: every
supplied field takes the supplied value, every unsupplied field keeps the
stored value, `updated_at` becomes the current instant, and the identity
columns are untouched.  In particular a status-only update changes only
`status` and `updated_at`, and an empty update changes only `updated_at`. -/
theorem update_task_frame
    (db : List TaskRow) (tid uid : Nat) (u : TaskUpdate) (now : Nat)
    (ex : TaskRow) (hfound : findTask db tid uid = some ex) :
    (update_task db tid uid u now).1 = .ok (applySet ex (updateClauses u now)) ∧
    ((applySet ex (updateClauses u now)).updated_at = now ∧
     (applySet ex (updateClauses u now)).id = ex.id ∧
     (applySet ex (updateClauses u now)).user_id = ex.user_id ∧
     (applySet ex (updateClauses u now)).created_at = ex.created_at) ∧
    ((applySet ex (updateClauses u now)).title
        = (match u.title with | some v => v | none => ex.title) ∧
     (applySet ex (updateClauses u now)).description
        = (match u.description with | some v => some v | none => ex.description) ∧
     (applySet ex (updateClauses u now)).priority
        = (match u.priority with | some v => v | none => ex.priority) ∧
     (applySet ex (updateClauses u now)).status
        = (match u.status with | some v => v | none => ex.status) ∧
     (applySet ex (updateClauses u now)).due_date
        = (match u.due_date with | some v => some v | none => ex.due_date)) ∧
    (∀ s, applySet ex (updateClauses ⟨none, none, none, some s, none⟩ now)
        = { ex with status := s, updated_at := now }) ∧
    applySet ex (updateClauses ⟨none, none, none, none, none⟩ now)
        = { ex with updated_at := now } := by
  obtain ⟨ot, od, op, os, odd⟩ := u
  refine ⟨by simp [update_task, hfound], ?_, ?_, ?_, ?_⟩ <;>
    cases ot <;> cases od <;> cases op <;> cases os <;> cases odd <;>
      simp [applySet, updateClauses]

/-- Witness for C2: a status-only update of a concrete stored task advances
`updated_at` and leaves title, description, priority and due date intact. -/
theorem update_task_frame_witness :
    (update_task [⟨1, 1, "a", some "d", "high", "pending", some 9, 0, 0⟩] 1 1
        ⟨none, none, none, some "completed", none⟩ 7).1
      = .ok (applySet ⟨1, 1, "a", some "d", "high", "pending", some 9, 0, 0⟩
          (updateClauses ⟨none, none, none, some "completed", none⟩ 7)) ∧
    applySet ⟨1, 1, "a", some "d", "high", "pending", some 9, 0, 0⟩
        (updateClauses ⟨none, none, none, some "completed", none⟩ 7)
      = ⟨1, 1, "a", some "d", "high", "completed", some 9, 0, 7⟩ := by
  have h := update_task_frame
    [⟨1, 1, "a", some "d", "high", "pending", some 9, 0, 0⟩] 1 1
    ⟨none, none, none, some "completed", none⟩ 7
    ⟨1, 1, "a", some "d", "high", "pending", some 9, 0, 0⟩ (by decide)
  exact ⟨h.1, h.2.2.2.1 "completed"⟩

/-- The row set `SELECT ... FROM tasks WHERE user_id = %s` underlying the
statistics query. -/
def userTasks (db : List TaskRow) (uid : Nat) : List TaskRow :=
  db.filter (fun r => r.user_id == uid)

/-- SQL `SUM` of an integer expression over a row set: `NULL` (i.e. `none`)
when the row set is empty, otherwise the sum of the values. -/
def sqlSum (rows : List TaskRow) (f : TaskRow → Nat) : Option Nat :=
  if rows.isEmpty then none else some (rows.map f).sum

/-- The `CASE WHEN due_date < CURRENT_TIMESTAMP AND status != 'completed'`
condition of the statistics query: with a `NULL` due date the comparison is
`NULL`, the conjunction is not true, and the `CASE` yields its `ELSE 0`. -/
def isOverdueSql (now : Nat) (r : TaskRow) : Bool :=
  (match r.due_date with
   | some d => decide (d < now)
   | none => false) && r.status != "completed"

/-- Result row of `GET /tasks/stats/summary`: `COUNT(*)` is never `NULL`,
each `SUM(CASE ...)` is nullable. -/
structure TaskStats where
  total_tasks : Nat
  completed : Option Nat
  in_progress : Option Nat
  pending : Option Nat
  high_priority : Option Nat
  overdue : Option Nat
deriving DecidableEq, Repr

/-- Handler `GET /tasks/stats/summary` (`get_task_statistics` in
`src/main.py`). -/
def get_task_statistics (db : List TaskRow) (uid now : Nat) : TaskStats :=
  let rows := userTasks db uid
  { total_tasks := rows.length
  , completed := sqlSum rows (fun r => if r.status == "completed" then 1 else 0)
  , in_progress := sqlSum rows (fun r => if r.status == "in_progress" then 1 else 0)
  , pending := sqlSum rows (fun r => if r.status == "pending" then 1 else 0)
  , high_priority := sqlSum rows (fun r => if r.priority == "high" then 1 else 0)
  , overdue := sqlSum rows (fun r => if isOverdueSql now r then 1 else 0) }

/-- Number of the user's tasks carrying a given status, written from the
spec's words ("the count of that user's tasks having the corresponding
status value") for comparison with the query's sums. -/
def statusCount (db : List TaskRow) (uid : Nat) (s : String) : Nat :=
  (userTasks db uid).countP (fun r => r.status == s)

/-- Number of the user's tasks whose due date is strictly before the current
instant and whose status is not `completed`, a task with no due date never
counting; written from the spec's words for comparison with the query. -/
def overdueCountSpec (db : List TaskRow) (uid now : Nat) : Nat :=
  db.countP (fun r => r.user_id == uid &&
    (match r.due_date with
     | some d => decide (d < now)
     | none => false) && r.status != "completed")

lemma sum_map_ite_eq_countP (p : TaskRow → Bool) (l : List TaskRow) :
    (l.map (fun r => if p r then 1 else 0)).sum = l.countP p := by
  induction l with
  | nil => simp
  | cons a l ih =>
    by_cases h : p a <;> simp [List.countP_cons, h, ih, Nat.add_comm]

lemma sqlSum_ite_of_ne_nil (p : TaskRow → Bool) (l : List TaskRow)
    (h : l ≠ []) :
    sqlSum l (fun r => if p r then 1 else 0) = some (l.countP p) := by
  unfold sqlSum
  rw [sum_map_ite_eq_countP]
  simp [List.isEmpty_iff, h]

lemma countP_three_statuses (l : List TaskRow)
    (h : ∀ r ∈ l, r.status = "pending" ∨ r.status = "in_progress" ∨
      r.status = "completed") :
    l.countP (fun r => r.status == "pending")
      + l.countP (fun r => r.status == "in_progress")
      + l.countP (fun r => r.status == "completed") = l.length := by
  induction l with
  | nil => simp
  | cons a l ih =>
    have ha := h a (by simp)
    have ih' := ih (fun r hr => h r (by simp [hr]))
    rcases ha with h1 | h1 | h1 <;>
      simp +decide only [List.countP_cons, h1, List.length_cons, if_true,
        if_false] <;> omega

/-- C3 counterexample.  As stated the sum identity fails in two reachable
states: for a user with zero tasks the three status sums are SQL `NULL`
rather than counts, and a stored status outside the enumeration (reachable
through the unvalidated `PUT /tasks/{id}` body) is counted by `COUNT(*)` but
by none of the three status sums. -/
theorem summary_sum_counterexample :
    ((get_task_statistics [] 1 0).total_tasks = 0 ∧
     (get_task_statistics [] 1 0).pending = none ∧
     (get_task_statistics [] 1 0).in_progress = none ∧
     (get_task_statistics [] 1 0).completed = none) ∧
    (update_task [⟨1, 1, "t", none, "medium", "pending", none, 0, 0⟩] 1 1
        ⟨none, none, none, some "blocked", none⟩ 3
      = (.ok ⟨1, 1, "t", none, "medium", "blocked", none, 0, 3⟩,
         [⟨1, 1, "t", none, "medium", "blocked", none, 0, 3⟩])) ∧
    ((get_task_statistics [⟨1, 1, "t", none, "medium", "blocked", none, 0, 3⟩]
        1 9).pending = some 0 ∧
     (get_task_statistics [⟨1, 1, "t", none, "medium", "blocked", none, 0, 3⟩]
        1 9).in_progress = some 0 ∧
     (get_task_statistics [⟨1, 1, "t", none, "medium", "blocked", none, 0, 3⟩]
        1 9).completed = some 0 ∧
     (get_task_statistics [⟨1, 1, "t", none, "medium", "blocked", none, 0, 3⟩]
        1 9).total_tasks = 1 ∧
     0 + 0 + 0 ≠ 1) := by
  exact ⟨by decide, by rfl, by decide⟩

/-- C3 amended: for a user owning at least one task, all of whose tasks have
a status inside the enumeration pending/in-progress/completed, the three
status sums are the corresponding counts and add up to `total_tasks`. -/
theorem summary_sum_amended (db : List TaskRow) (uid now : Nat)
    (hne : userTasks db uid ≠ [])
    (henum : ∀ r ∈ db, r.user_id = uid →
      r.status = "pending" ∨ r.status = "in_progress" ∨ r.status = "completed") :
    (get_task_statistics db uid now).pending
        = some (statusCount db uid "pending") ∧
    (get_task_statistics db uid now).in_progress
        = some (statusCount db uid "in_progress") ∧
    (get_task_statistics db uid now).completed
        = some (statusCount db uid "completed") ∧
    statusCount db uid "pending" + statusCount db uid "in_progress"
        + statusCount db uid "completed"
      = (get_task_statistics db uid now).total_tasks := by
  have henum' : ∀ r ∈ userTasks db uid,
      r.status = "pending" ∨ r.status = "in_progress" ∨ r.status = "completed" := by
    intro r hr
    rw [userTasks, List.mem_filter] at hr
    exact henum r hr.1 (by simpa using hr.2)
  refine ⟨?_, ?_, ?_, ?_⟩
  · exact sqlSum_ite_of_ne_nil _ _ hne
  · exact sqlSum_ite_of_ne_nil _ _ hne
  · exact sqlSum_ite_of_ne_nil _ _ hne
  · exact countP_three_statuses (userTasks db uid) henum'

/-- Witness for the amended C3 at a concrete two-task database. -/
theorem summary_sum_amended_witness :
    (get_task_statistics
        [⟨1, 1, "a", none, "medium", "pending", none, 0, 0⟩,
         ⟨2, 1, "b", none, "high", "completed", none, 1, 1⟩] 1 9).pending
      = some (statusCount
        [⟨1, 1, "a", none, "medium", "pending", none, 0, 0⟩,
         ⟨2, 1, "b", none, "high", "completed", none, 1, 1⟩] 1 "pending") ∧
    (get_task_statistics
        [⟨1, 1, "a", none, "medium", "pending", none, 0, 0⟩,
         ⟨2, 1, "b", none, "high", "completed", none, 1, 1⟩] 1 9).in_progress
      = some (statusCount
        [⟨1, 1, "a", none, "medium", "pending", none, 0, 0⟩,
         ⟨2, 1, "b", none, "high", "completed", none, 1, 1⟩] 1 "in_progress") ∧
    (get_task_statistics
        [⟨1, 1, "a", none, "medium", "pending", none, 0, 0⟩,
         ⟨2, 1, "b", none, "high", "completed", none, 1, 1⟩] 1 9).completed
      = some (statusCount
        [⟨1, 1, "a", none, "medium", "pending", none, 0, 0⟩,
         ⟨2, 1, "b", none, "high", "completed", none, 1, 1⟩] 1 "completed") ∧
    statusCount
        [⟨1, 1, "a", none, "medium", "pending", none, 0, 0⟩,
         ⟨2, 1, "b", none, "high", "completed", none, 1, 1⟩] 1 "pending"
      + statusCount
        [⟨1, 1, "a", none, "medium", "pending", none, 0, 0⟩,
         ⟨2, 1, "b", none, "high", "completed", none, 1, 1⟩] 1 "in_progress"
      + statusCount
        [⟨1, 1, "a", none, "medium", "pending", none, 0, 0⟩,
         ⟨2, 1, "b", none, "high", "completed", none, 1, 1⟩] 1 "completed"
      = (get_task_statistics
        [⟨1, 1, "a", none, "medium", "pending", none, 0, 0⟩,
         ⟨2, 1, "b", none, "high", "completed", none, 1, 1⟩] 1 9).total_tasks :=
  summary_sum_amended
    [⟨1, 1, "a", none, "medium", "pending", none, 0, 0⟩,
     ⟨2, 1, "b", none, "high", "completed", none, 1, 1⟩] 1 9
    (by decide) (by decide)

/-- C4 counterexample.  For a user with zero tasks the number of overdue
tasks is 0, but the summary's `overdue` field is SQL `NULL` (`SUM` over an
empty row set), not that number. -/
theorem summary_overdue_counterexample :
    (get_task_statistics [] 1 5).overdue = none ∧
    overdueCountSpec [] 1 5 = 0 ∧
    (get_task_statistics [] 1 5).overdue ≠ some (overdueCountSpec [] 1 5) := by
  decide

/-- C4 amended: for a user owning at least one task, the summary's `overdue`
field is exactly the number of that user's tasks with a due date strictly
before the current instant and a status other than `completed`; a task with
no due date never satisfies the overdue condition. -/
theorem summary_overdue_amended (db : List TaskRow) (uid now : Nat)
    (hne : userTasks db uid ≠ []) :
    (get_task_statistics db uid now).overdue
        = some (overdueCountSpec db uid now) ∧
    ∀ r : TaskRow, r.due_date = none → isOverdueSql now r = false := by
  constructor
  · have h1 : (get_task_statistics db uid now).overdue
        = some ((userTasks db uid).countP (isOverdueSql now)) :=
      sqlSum_ite_of_ne_nil (isOverdueSql now) (userTasks db uid) hne
    rw [h1]
    congr 1
    unfold userTasks overdueCountSpec
    rw [List.countP_filter]
    apply List.countP_congr
    intro r _
    cases hu : (r.user_id == uid) <;>
      simp [isOverdueSql, hu, Bool.and_comm, Bool.and_assoc, Bool.and_left_comm]
  · intro r hr
    simp [isOverdueSql, hr]

/-- Witness for the amended C4: one overdue and one future-dated task. -/
theorem summary_overdue_amended_witness :
    (get_task_statistics
        [⟨1, 1, "a", none, "medium", "pending", some 3, 0, 0⟩,
         ⟨2, 1, "b", none, "high", "pending", some 20, 1, 1⟩] 1 10).overdue
      = some (overdueCountSpec
        [⟨1, 1, "a", none, "medium", "pending", some 3, 0, 0⟩,
         ⟨2, 1, "b", none, "high", "pending", some 20, 1, 1⟩] 1 10) ∧
    ∀ r : TaskRow, r.due_date = none → isOverdueSql 10 r = false :=
  summary_overdue_amended
    [⟨1, 1, "a", none, "medium", "pending", some 3, 0, 0⟩,
     ⟨2, 1, "b", none, "high", "pending", some 20, 1, 1⟩] 1 10 (by decide)

/-- Body of `POST /tasks` after pydantic validation (`TaskCreate` in
`src/main.py`): `title` required, `priority` defaulting to `"medium"`.  The
source constrains `priority` only by a comment, not by the type. -/
structure TaskCreate where
  title : String
  description : Option String := none
  priority : String := "medium"
  due_date : Option Nat := none
deriving DecidableEq, Repr

/-- Raw JSON body of `POST /tasks` (well-typed fields; `none` stands for an
absent field). -/
structure RawTaskCreate where
  title : Option String := none
  description : Option String := none
  priority : Option String := none
  due_date : Option Nat := none
deriving DecidableEq, Repr

/-- Pydantic validation of the `TaskCreate` body: a missing `title` is a 422
validation error; every other field falls back to its declared default.  No
field value is checked against an enumeration — `priority: str` accepts any
string. -/
def validateTaskCreate (b : RawTaskCreate) : Except Nat TaskCreate :=
  match b.title with
  | none => .error 422
  | some t =>
      .ok { title := t
          , description := b.description
          , priority := (b.priority).getD "medium"
          , due_date := b.due_date }

/-- Handler `POST /tasks` (`create_task` in `src/main.py`): inserts a row for
the current user; `status` is not in the column list, so the table default
`'pending'` applies; `created_at`/`updated_at` default to now. -/
def create_task (db : List TaskRow) (uid : Nat) (t : TaskCreate)
    (newId now : Nat) : TaskRow × List TaskRow :=
  let row : TaskRow :=
    { id := newId, user_id := uid, title := t.title
    , description := t.description, priority := t.priority
    , status := "pending", due_date := t.due_date
    , created_at := now, updated_at := now }
  (row, db ++ [row])

/-- C5, evaluated at the failing inputs.  A create body with priority
`"urgent"` passes validation and inserts a row carrying `"urgent"`, and an
update body with priority `"urgent!"` and status `"wibble"` is applied to
the stored row — neither request is rejected with 422, although a missing
`title` is. -/
theorem enum_validation_missing :
    validateTaskCreate ⟨some "t", none, some "urgent", none⟩
      = .ok ⟨"t", none, "urgent", none⟩ ∧
    (create_task [] 1 ⟨"t", none, "urgent", none⟩ 1 0).2
      = [⟨1, 1, "t", none, "urgent", "pending", none, 0, 0⟩] ∧
    (update_task [⟨1, 1, "t", none, "medium", "pending", none, 0, 0⟩] 1 1
        ⟨none, none, some "urgent!", some "wibble", none⟩ 3).1
      = .ok ⟨1, 1, "t", none, "urgent!", "wibble", none, 0, 3⟩ ∧
    validateTaskCreate ⟨none, none, none, none⟩ = .error 422 :=
  ⟨rfl, rfl, rfl, rfl⟩

/-- Outcome of one request in the connection-accounting model. -/
inductive HOutcome
  | success
  | httpError (code : Nat)
  | dbFailure
deriving DecidableEq, Repr

/-- Handler `POST /register` instrumented for connection accounting.  The
two flags inject a database failure into the duplicate-check `SELECT` and
the `INSERT`.  The second component records whether `conn.close()` ran
before the request finished: the source closes the connection on the
duplicate branch and on the success path, but a raised database error
propagates before any `close()` — there is no `try/finally`. -/
def register_trace (users : List UserRow) (email username : String)
    (fail_check fail_insert : Bool) : HOutcome × Bool :=
  if fail_check then (.dbFailure, false)
  else if (users.find? (fun u => u.email == email || u.username == username)).isSome
  then (.httpError 400, true)
  else if fail_insert then (.dbFailure, false)
  else (.success, true)

/-- Handler `PUT /tasks/{task_id}` instrumented for connection accounting,
with failure injection into the ownership-check `SELECT` and the
`UPDATE`. -/
def update_task_trace (db : List TaskRow) (task_id uid : Nat)
    (fail_select fail_update : Bool) : HOutcome × Bool :=
  if fail_select then (.dbFailure, false)
  else if (findTask db task_id uid).isNone then (.httpError 404, true)
  else if fail_update then (.dbFailure, false)
  else (.success, true)

/-- C6 counterexample.  A database failure raised by the `UPDATE` statement
of `update_task` (and likewise by the `INSERT` of `register`) propagates out
of the handler with the connection still open: no code path closes it. -/
theorem connection_leak_counterexample :
    update_task_trace [⟨1, 1, "t", none, "medium", "pending", none, 0, 0⟩]
        1 1 false true = (.dbFailure, false) ∧
    register_trace [] "a@b.c" "alice" false true = (.dbFailure, false) := by
  decide

/-- C6 amended: on every exit path that is not a propagated database
failure — success responses and the explicit 400/404 error responses — the
handlers of `register` and `update_task` do close their connection. -/
theorem connection_release_amended
    (db : List TaskRow) (task_id uid : Nat) (users : List UserRow)
    (email username : String) (f1 f2 g1 g2 : Bool) :
    ((update_task_trace db task_id uid f1 f2).1 ≠ .dbFailure →
      (update_task_trace db task_id uid f1 f2).2 = true) ∧
    ((register_trace users email username g1 g2).1 ≠ .dbFailure →
      (register_trace users email username g1 g2).2 = true) := by
  constructor
  · cases f1 <;> cases f2 <;>
      by_cases h : (findTask db task_id uid).isNone <;>
        simp [update_task_trace, h]
  · cases g1 <;> cases g2 <;>
      by_cases h : (users.find?
          (fun u => u.email == email || u.username == username)).isSome <;>
        simp [register_trace, h]

/-- Witness for the amended C6 on concrete success and 404/400 paths. -/
theorem connection_release_amended_witness :
    (update_task_trace [] 1 1 false false).2 = true ∧
    (register_trace [⟨1, "a@b.c", "alice", none, "h", true, 0⟩]
        "a@b.c" "alice" false false).2 = true :=
  ⟨(connection_release_amended [] 1 1 [] "x" "y" false false false false).1
      (by decide),
   (connection_release_amended [] 1 1
      [⟨1, "a@b.c", "alice", none, "h", true, 0⟩] "a@b.c" "alice"
      false false false false).2 (by decide)⟩

/-- Python truthiness of an optional string, as used by the `if status:` and
`if priority:` guards of `get_tasks`: `None` and the empty string are falsy,
every other string is truthy. -/
def truthy : Option String → Bool
  | none => false
  | some s => !(s == "")

/-- The `WHERE` clause assembled by `get_tasks`: the owner predicate, plus
an equality conjunct per filter whose value is truthy. -/
def listPred (uid : Nat) (statusF priorityF : Option String) (r : TaskRow) :
    Bool :=
  r.user_id == uid
    && (if truthy statusF then r.status == statusF.getD "" else true)
    && (if truthy priorityF then r.priority == priorityF.getD "" else true)

/-- Handler `GET /tasks` (`get_tasks` in `src/main.py`): the filtered rows
in some order satisfying `ORDER BY created_at DESC`. -/
def get_tasks (db : List TaskRow) (uid : Nat)
    (statusF priorityF : Option String) : List TaskRow :=
  (db.filter (listPred uid statusF priorityF)).mergeSort
    (fun a b => decide (b.created_at ≤ a.created_at))

/-- C7 counterexample.  An explicitly supplied empty-string status filter
(`GET /tasks?status=`) is falsy under the `if status:` guard, so the clause
is dropped: the handler returns a task whose status `"pending"` does not
satisfy the supplied equality filter `status = ""`. -/
theorem get_tasks_filter_counterexample :
    get_tasks [⟨1, 1, "t", none, "medium", "pending", none, 0, 0⟩] 1
        (some "") none
      = [⟨1, 1, "t", none, "medium", "pending", none, 0, 0⟩] ∧
    (⟨1, 1, "t", none, "medium", "pending", none, 0, 0⟩ : TaskRow).status
      ≠ "" := by
  constructor
  · show (List.filter _ _).mergeSort _ = _
    rw [show List.filter
        (listPred 1 (some "") none)
        [⟨1, 1, "t", none, "medium", "pending", none, 0, 0⟩]
      = [⟨1, 1, "t", none, "medium", "pending", none, 0, 0⟩] from by decide]
    exact List.mergeSort_singleton _
  · decide

/-- C7 amended: with the filters interpreted through the truthiness guard —
an empty-string value behaves as if the filter were absent — `GET /tasks`
returns exactly the caller's tasks satisfying every effective equality
filter (their intersection when both are truthy), in descending
`created_at` order. -/
theorem get_tasks_amended (db : List TaskRow) (uid : Nat)
    (statusF priorityF : Option String) :
    (get_tasks db uid statusF priorityF).Perm
      (db.filter (listPred uid statusF priorityF)) ∧
    List.Pairwise (fun a b : TaskRow => b.created_at ≤ a.created_at)
      (get_tasks db uid statusF priorityF) ∧
    (∀ r : TaskRow, r ∈ get_tasks db uid statusF priorityF ↔
      r ∈ db ∧ r.user_id = uid
        ∧ (truthy statusF = true → r.status = statusF.getD "")
        ∧ (truthy priorityF = true → r.priority = priorityF.getD "")) := by
  have hperm := List.mergeSort_perm
    (db.filter (listPred uid statusF priorityF))
    (fun a b => decide (b.created_at ≤ a.created_at))
  refine ⟨hperm, ?_, ?_⟩
  · have hs := @List.sorted_mergeSort TaskRow
      (fun a b : TaskRow => decide (b.created_at ≤ a.created_at))
      (fun a b c h1 h2 => by
        simp only [decide_eq_true_eq] at *
        omega)
      (fun a b => by
        simp only [Bool.or_eq_true, decide_eq_true_eq]
        omega)
      (db.filter (listPred uid statusF priorityF))
    exact hs.imp (fun h => by simpa using h)
  · intro r
    unfold get_tasks
    rw [hperm.mem_iff, List.mem_filter]
    unfold listPred
    constructor
    · rintro ⟨hdb, hp⟩
      simp only [Bool.and_eq_true, beq_iff_eq] at hp
      obtain ⟨⟨hu, hst⟩, hpr⟩ := hp
      refine ⟨hdb, hu, ?_, ?_⟩
      · intro ht
        rw [ht] at hst
        simpa using hst
      · intro ht
        rw [ht] at hpr
        simpa using hpr
    · rintro ⟨hdb, hu, hst, hpr⟩
      refine ⟨hdb, ?_⟩
      simp only [Bool.and_eq_true, beq_iff_eq]
      refine ⟨⟨hu, ?_⟩, ?_⟩
      · cases ht : truthy statusF
        · simp
        · simp [hst ht]
      · cases ht : truthy priorityF
        · simp
        · simp [hpr ht]

/-- Witness for the amended C7 at a concrete database and filter pair. -/
theorem get_tasks_amended_witness :
    (get_tasks [⟨1, 1, "a", none, "high", "pending", none, 0, 0⟩,
        ⟨2, 1, "b", none, "high", "completed", none, 5, 5⟩] 1
        (some "pending") (some "high")).Perm
      ([⟨1, 1, "a", none, "high", "pending", none, 0, 0⟩,
        ⟨2, 1, "b", none, "high", "completed", none, 5, 5⟩].filter
        (listPred 1 (some "pending") (some "high"))) ∧
    List.Pairwise (fun a b : TaskRow => b.created_at ≤ a.created_at)
      (get_tasks [⟨1, 1, "a", none, "high", "pending", none, 0, 0⟩,
        ⟨2, 1, "b", none, "high", "completed", none, 5, 5⟩] 1
        (some "pending") (some "high")) ∧
    (∀ r : TaskRow, r ∈ get_tasks
        [⟨1, 1, "a", none, "high", "pending", none, 0, 0⟩,
         ⟨2, 1, "b", none, "high", "completed", none, 5, 5⟩] 1
        (some "pending") (some "high") ↔
      r ∈ [⟨1, 1, "a", none, "high", "pending", none, 0, 0⟩,
           ⟨2, 1, "b", none, "high", "completed", none, 5, 5⟩]
        ∧ r.user_id = 1
        ∧ (truthy (some "pending") = true → r.status = (some "pending").getD "")
        ∧ (truthy (some "high") = true → r.priority = (some "high").getD "")) :=
  get_tasks_amended
    [⟨1, 1, "a", none, "high", "pending", none, 0, 0⟩,
     ⟨2, 1, "b", none, "high", "completed", none, 5, 5⟩] 1
    (some "pending") (some "high")

/-- JWT claims as this service uses them: the `sub` entry read back by
`payload.get("sub")` (absent in a token encoded without it) and the `exp`
claim. -/
structure JwtPayload where
  sub : Option Nat
  exp : Nat
deriving DecidableEq, Repr

/-- Symbolic HS256 MAC over a payload: the tag binds exactly the payload and
the secret (forgery excluded, as assumed of HMAC). -/
def hmacSign (secret : String) (p : JwtPayload) : JwtPayload × String :=
  (p, secret)

/-- A structurally well-formed JWT: claims plus signature tag. -/
structure SignedJwt where
  payload : JwtPayload
  sig : JwtPayload × String
deriving DecidableEq, Repr

/-- A bearer token as extracted from the Authorization header: either a
structurally valid JWT (possibly with a wrong signature) or an undecodable
string. -/
inductive BearerToken
  | jwtTok (t : SignedJwt)
  | malformed (raw : String)
deriving DecidableEq, Repr

/-- Failure modes of `jwt.decode`, all subclasses of `PyJWTError`. -/
inductive JwtError
  | decodeError
  | invalidSignature
  | expired
deriving DecidableEq, Repr

/-- The `jwt.decode(token, SECRET_KEY, algorithms=[ALGORITHM])` call:
undecodable input fails, a wrong signature fails, and an `exp` claim not in
the future fails; otherwise the claims are returned. -/
def jwt_decode : BearerToken → String → Nat → Except JwtError JwtPayload
  | .malformed _, _, _ => .error .decodeError
  | .jwtTok t, secret, now =>
      if t.sig ≠ hmacSign secret t.payload then .error .invalidSignature
      else if t.payload.exp ≤ now then .error .expired
      else .ok t.payload

/-- `create_access_token` (`src/main.py`): copies the data (here the
subject), sets `exp` to now plus the supplied delta — defaulting to
15 minutes — and signs with the server secret.  Time is counted in
minutes. -/
def create_access_token (sub : Nat) (expires_delta : Option Nat) (now : Nat)
    (secret : String) : BearerToken :=
  let expire := match expires_delta with
    | some d => now + d
    | none => now + 15
  .jwtTok ⟨⟨some sub, expire⟩, hmacSign secret ⟨some sub, expire⟩⟩

/-- Configured refresh-token lifetime, in days (`src/main.py`). -/
def REFRESH_TOKEN_EXPIRE_DAYS : Nat := 7

/-- Configured access-token lifetime used by `login`, in minutes. -/
def ACCESS_TOKEN_EXPIRE_MINUTES : Nat := 30

/-- `create_refresh_token` (`src/main.py`): same mechanism with a fixed
multi-day expiry. -/
def create_refresh_token (sub : Nat) (now : Nat) (secret : String) :
    BearerToken :=
  let expire := now + REFRESH_TOKEN_EXPIRE_DAYS * 24 * 60
  .jwtTok ⟨⟨some sub, expire⟩, hmacSign secret ⟨some sub, expire⟩⟩

/-- An `HTTPException` as raised by the handlers: status code, detail
message, optional `WWW-Authenticate` header. -/
structure HTTPError where
  status_code : Nat
  detail : String
  www_authenticate : Option String
deriving DecidableEq, Repr

/-- The `credentials_exception` of `get_current_user`. -/
def credentials_exception : HTTPError :=
  ⟨401, "Could not validate credentials", some "Bearer"⟩

/-- Dependency `get_current_user` (`src/main.py`): decode the bearer token,
read the subject, resolve it against the `users` table; every failure is the
single 401 `credentials_exception`. -/
def get_current_user (users : List UserRow) (tok : BearerToken)
    (secret : String) (now : Nat) : Except HTTPError UserRow :=
  match jwt_decode tok secret now with
  | .error _ => .error credentials_exception
  | .ok p =>
      match p.sub with
      | none => .error credentials_exception
      | some uid =>
          match users.find? (fun u => u.id == uid) with
          | none => .error credentials_exception
          | some u => .ok u

/-- C8: a token issued for a subject present in the `users` table validates
back to that subject at every instant strictly before its expiry; at or
after the expiry, with a tampered signature, or malformed, validation fails
with the 401 error carrying the bearer challenge header. -/
theorem token_roundtrip_and_rejection
    (users : List UserRow) (secret : String) (uid delta now t : Nat)
    (huser : (users.find? (fun x => x.id == uid)).isSome = true) :
    (t < now + delta →
      ∃ u, get_current_user users
          (create_access_token uid (some delta) now secret) secret t
        = .ok u ∧ u.id = uid) ∧
    (now + delta ≤ t →
      get_current_user users
          (create_access_token uid (some delta) now secret) secret t
        = .error credentials_exception) ∧
    (∀ jt : SignedJwt, jt.sig ≠ hmacSign secret jt.payload →
      get_current_user users (.jwtTok jt) secret t
        = .error credentials_exception) ∧
    (∀ raw, get_current_user users (.malformed raw) secret t
        = .error credentials_exception) ∧
    credentials_exception.status_code = 401 ∧
    credentials_exception.www_authenticate = some "Bearer" := by
  refine ⟨?_, ?_, ?_, ?_, rfl, rfl⟩
  · intro ht
    obtain ⟨u, hu⟩ := Option.isSome_iff_exists.mp huser
    have hid : u.id = uid := by
      have := List.find?_some hu
      simpa using this
    refine ⟨u, ?_, hid⟩
    have hexp : ¬(now + delta ≤ t) := by omega
    simp [get_current_user, create_access_token, jwt_decode, hexp, hu]
  · intro ht
    simp [get_current_user, create_access_token, jwt_decode, ht]
  · intro jt hsig
    simp [get_current_user, jwt_decode, hsig]
  · intro raw
    simp [get_current_user, jwt_decode]

/-- Witness for C8: user 7 exists; a token minted at minute 0 with a
30-minute lifetime is accepted at minute 10 and rejected at minute 30, and
tampered or malformed tokens are rejected. -/
theorem token_roundtrip_witness :
    (10 < 0 + 30 →
      ∃ u, get_current_user [⟨7, "e@x.y", "u7", none, "h", true, 0⟩]
          (create_access_token 7 (some 30) 0 "secret") "secret" 10
        = .ok u ∧ u.id = 7) ∧
    (0 + 30 ≤ 30 →
      get_current_user [⟨7, "e@x.y", "u7", none, "h", true, 0⟩]
          (create_access_token 7 (some 30) 0 "secret") "secret" 30
        = .error credentials_exception) ∧ True := by
  have h10 := token_roundtrip_and_rejection
    [⟨7, "e@x.y", "u7", none, "h", true, 0⟩] "secret" 7 30 0 10 (by decide)
  have h30 := token_roundtrip_and_rejection
    [⟨7, "e@x.y", "u7", none, "h", true, 0⟩] "secret" 7 30 0 30 (by decide)
  exact ⟨h10.1, h30.2.1, trivial⟩

/-- Symbolic bcrypt (`pwd_context.hash`): an injective tagging of the
password.  The only property relied on below is that verification is a
function of the candidate password and the stored hash alone. -/
def get_password_hash (password : String) : String :=
  "bcrypt2b" ++ password

/-- `pwd_context.verify` (`verify_password` in `src/main.py`). -/
def verify_password (plain hashed : String) : Bool :=
  hashed == get_password_hash plain

/-- The 401 raised by `login` on an unknown username or wrong password. -/
def login_exception : HTTPError :=
  ⟨401, "Incorrect username or password", some "Bearer"⟩

/-- Response body of `POST /token`. -/
structure TokenPair where
  access_token : BearerToken
  refresh_token : BearerToken
  token_type : String
deriving DecidableEq, Repr

/-- Handler `POST /token` (`login` in `src/main.py`): look the user up by
username, check the password, and mint the two tokens for the user's id.
The row's `is_active` flag is never read. -/
def login (users : List UserRow) (username password : String) (now : Nat)
    (secret : String) : Except HTTPError TokenPair :=
  match users.find? (fun u => u.username == username) with
  | none => .error login_exception
  | some u =>
      if verify_password password u.hashed_password then
        .ok ⟨create_access_token u.id (some ACCESS_TOKEN_EXPIRE_MINUTES) now
               secret,
             create_refresh_token u.id now secret, "bearer"⟩
      else .error login_exception

/-- Two user rows agreeing on every column except possibly `is_active`. -/
def sameExceptActive (u v : UserRow) : Prop :=
  u.id = v.id ∧ u.email = v.email ∧ u.username = v.username ∧
  u.full_name = v.full_name ∧ u.hashed_password = v.hashed_password ∧
  u.created_at = v.created_at

/-- Lifting of `sameExceptActive` to `fetchone()` results. -/
def optRelUser : Option UserRow → Option UserRow → Prop
  | none, none => True
  | some u, some v => sameExceptActive u v
  | _, _ => False

/-- Lifting of `sameExceptActive` to handler outcomes: errors must agree
exactly, successes up to the `is_active` column. -/
def exceptRelUser : Except HTTPError UserRow → Except HTTPError UserRow →
    Prop
  | .error e, .error e' => e = e'
  | .ok u, .ok v => sameExceptActive u v
  | _, _ => False

lemma find?_sameExceptActive (users users' : List UserRow)
    (p : UserRow → Bool)
    (h : List.Forall₂ sameExceptActive users users')
    (hp : ∀ a b, sameExceptActive a b → p a = p b) :
    optRelUser (users.find? p) (users'.find? p) := by
  induction h with
  | nil => trivial
  | cons hab _ ih =>
    rename_i a b l1 l2 _
    by_cases hpa : p a
    · rw [List.find?_cons_of_pos _ hpa,
        List.find?_cons_of_pos _ ((hp a b hab) ▸ hpa)]
      exact hab
    · rw [List.find?_cons_of_neg _ hpa,
        List.find?_cons_of_neg _ ((hp a b hab) ▸ hpa)]
      exact ih

lemma login_found_form (users : List UserRow) (username password : String)
    (now : Nat) (secret : String) (u : UserRow)
    (hu : users.find? (fun x => x.username == username) = some u) :
    login users username password now secret =
      if verify_password password u.hashed_password then
        .ok ⟨create_access_token u.id (some ACCESS_TOKEN_EXPIRE_MINUTES) now
               secret,
             create_refresh_token u.id now secret, "bearer"⟩
      else .error login_exception := by
  unfold login
  rw [hu]

lemma get_current_user_ok_form (users : List UserRow) (tok : BearerToken)
    (secret : String) (now : Nat) (p : JwtPayload)
    (hdec : jwt_decode tok secret now = .ok p) :
    get_current_user users tok secret now =
      match p.sub with
      | none => .error credentials_exception
      | some uid =>
          match users.find? (fun u => u.id == uid) with
          | none => .error credentials_exception
          | some u => .ok u := by
  unfold get_current_user
  rw [hdec]

/-- C9: the `is_active` flag is dead state.  Over two `users` tables that
agree row-by-row on everything but `is_active`, `login` produces literally
identical responses (identical tokens included) and `get_current_user`
produces identical errors or rows agreeing outside `is_active`; every task
handler consumes only the authenticated row's `id`, which the relation
forces to agree.  An inactive user therefore logs in and operates exactly
like an active one. -/
theorem inactive_user_indistinguishable
    (users users' : List UserRow)
    (h : List.Forall₂ sameExceptActive users users')
    (username password secret : String) (now tnow : Nat)
    (tok : BearerToken) :
    login users username password now secret
      = login users' username password now secret ∧
    exceptRelUser (get_current_user users tok secret tnow)
      (get_current_user users' tok secret tnow) ∧
    (∀ u v : UserRow, sameExceptActive u v → u.id = v.id) := by
  refine ⟨?_, ?_, fun u v huv => huv.1⟩
  · have hf := find?_sameExceptActive users users'
      (fun x => x.username == username) h
      (fun a b hab => by simp [sameExceptActive] at hab; simp [hab])
    cases hu : users.find? (fun x => x.username == username) with
    | none =>
        cases hu' : users'.find? (fun x => x.username == username) with
        | none =>
            unfold login
            rw [hu, hu']
        | some v =>
            rw [hu, hu'] at hf
            exact False.elim hf
    | some u =>
        cases hu' : users'.find? (fun x => x.username == username) with
        | none =>
            rw [hu, hu'] at hf
            exact False.elim hf
        | some v =>
            rw [hu, hu'] at hf
            obtain ⟨hid, _, _, _, hpw, _⟩ := hf
            rw [login_found_form users username password now secret u hu,
              login_found_form users' username password now secret v hu',
              hid, hpw]
  · cases hdec : jwt_decode tok secret tnow with
    | error e =>
        unfold get_current_user
        rw [hdec]
        exact rfl
    | ok p =>
        rw [get_current_user_ok_form users tok secret tnow p hdec,
          get_current_user_ok_form users' tok secret tnow p hdec]
        cases hsub : p.sub with
        | none => exact rfl
        | some uid =>
            show exceptRelUser
              (match users.find? (fun u => u.id == uid) with
               | none => .error credentials_exception
               | some u => .ok u)
              (match users'.find? (fun u => u.id == uid) with
               | none => .error credentials_exception
               | some u => .ok u)
            have hf := find?_sameExceptActive users users'
              (fun u => u.id == uid) h
              (fun a b hab => by simp [sameExceptActive] at hab; simp [hab])
            cases hu : users.find? (fun u => u.id == uid) with
            | none =>
                cases hu' : users'.find? (fun u => u.id == uid) with
                | none => exact rfl
                | some v =>
                    rw [hu, hu'] at hf
                    exact False.elim hf
            | some u =>
                cases hu' : users'.find? (fun u => u.id == uid) with
                | none =>
                    rw [hu, hu'] at hf
                    exact False.elim hf
                | some v =>
                    rw [hu, hu'] at hf
                    exact hf

/-- Witness for C9: the same user stored active and inactive; login at a
concrete password and token validation behave identically. -/
theorem inactive_user_indistinguishable_witness :
    login [⟨1, "e@x.y", "alice", none, "bcrypt2bpw", true, 0⟩]
        "alice" "pw" 0 "secret"
      = login [⟨1, "e@x.y", "alice", none, "bcrypt2bpw", false, 0⟩]
        "alice" "pw" 0 "secret" ∧
    exceptRelUser
      (get_current_user [⟨1, "e@x.y", "alice", none, "bcrypt2bpw", true, 0⟩]
        (create_access_token 1 (some 30) 0 "secret") "secret" 5)
      (get_current_user [⟨1, "e@x.y", "alice", none, "bcrypt2bpw", false, 0⟩]
        (create_access_token 1 (some 30) 0 "secret") "secret" 5) :=
  have h : List.Forall₂ sameExceptActive
      [⟨1, "e@x.y", "alice", none, "bcrypt2bpw", true, 0⟩]
      [⟨1, "e@x.y", "alice", none, "bcrypt2bpw", false, 0⟩] :=
    List.Forall₂.cons ⟨rfl, rfl, rfl, rfl, rfl, rfl⟩ List.Forall₂.nil
  ⟨(inactive_user_indistinguishable _ _ h "alice" "pw" "secret" 0 5
      (create_access_token 1 (some 30) 0 "secret")).1,
   (inactive_user_indistinguishable _ _ h "alice" "pw" "secret" 0 5
      (create_access_token 1 (some 30) 0 "secret")).2.1⟩

/-- State of one field in the raw JSON body of `PUT /tasks/{id}`: absent
from the object, an explicit JSON `null`, or a value. -/
inductive JsonField (α : Type)
  | absent
  | null
  | given (a : α)
deriving DecidableEq, Repr

/-- Pydantic parsing of an `Optional[...] = None` field: both an absent
field and an explicit `null` produce `None`; a value is kept. -/
def JsonField.toOption {α : Type} : JsonField α → Option α
  | .absent => none
  | .null => none
  | .given a => some a

/-- Two raw field states the handler cannot tell apart if the claim holds:
equal, or one `null` and the other absent. -/
def nullOrAbsentEq {α : Type} (a b : JsonField α) : Prop :=
  a = b ∨ (a = .null ∧ b = .absent) ∨ (a = .absent ∧ b = .null)

/-- Raw JSON body of `PUT /tasks/{id}` with well-typed field values. -/
structure RawTaskUpdate where
  title : JsonField String
  description : JsonField String
  priority : JsonField String
  status : JsonField String
  due_date : JsonField Nat
deriving DecidableEq, Repr

/-- Pydantic validation of the update body into the `TaskUpdate` the
handler sees (`TaskUpdate` in `src/main.py`: every field
`Optional[...] = None`). -/
def parseTaskUpdate (r : RawTaskUpdate) : TaskUpdate :=
  ⟨r.title.toOption, r.description.toOption, r.priority.toOption,
   r.status.toOption, r.due_date.toOption⟩

lemma toOption_eq_of_nullOrAbsentEq {α : Type} {a b : JsonField α}
    (h : nullOrAbsentEq a b) : a.toOption = b.toOption := by
  rcases h with h | ⟨h1, h2⟩ | ⟨h1, h2⟩
  · rw [h]
  · rw [h1, h2]; rfl
  · rw [h1, h2]; rfl

/-- C10: a field sent as an explicit JSON `null` is indistinguishable from
an omitted field — the parsed bodies coincide, hence `update_task` behaves
identically — and consequently no update can reset `description` or
`due_date` from a set value back to `NULL`: whenever the updated row has
`none` there, the stored row already had `none`. -/
theorem null_field_equals_omitted
    (r r' : RawTaskUpdate)
    (ht : nullOrAbsentEq r.title r'.title)
    (hd : nullOrAbsentEq r.description r'.description)
    (hp : nullOrAbsentEq r.priority r'.priority)
    (hs : nullOrAbsentEq r.status r'.status)
    (hdd : nullOrAbsentEq r.due_date r'.due_date) :
    parseTaskUpdate r = parseTaskUpdate r' ∧
    (∀ (db : List TaskRow) (tid uid now : Nat),
      update_task db tid uid (parseTaskUpdate r) now
        = update_task db tid uid (parseTaskUpdate r') now) ∧
    (∀ (u : TaskUpdate) (t : TaskRow) (now : Nat),
      ((applySet t (updateClauses u now)).description = none →
        t.description = none) ∧
      ((applySet t (updateClauses u now)).due_date = none →
        t.due_date = none)) := by
  have hparse : parseTaskUpdate r = parseTaskUpdate r' := by
    unfold parseTaskUpdate
    rw [toOption_eq_of_nullOrAbsentEq ht, toOption_eq_of_nullOrAbsentEq hd,
      toOption_eq_of_nullOrAbsentEq hp, toOption_eq_of_nullOrAbsentEq hs,
      toOption_eq_of_nullOrAbsentEq hdd]
  refine ⟨hparse, fun db tid uid now => by rw [hparse], ?_⟩
  intro u t now
  obtain ⟨ot, od, op, os, odd⟩ := u
  constructor <;>
    cases ot <;> cases od <;> cases op <;> cases os <;> cases odd <;>
      simp [applySet, updateClauses]

/-- Witness for C10: a body with `title` and `due_date` sent as explicit
`null` parses and updates exactly like one omitting them. -/
theorem null_field_equals_omitted_witness :
    parseTaskUpdate ⟨.null, .given "d", .absent, .given "completed", .null⟩
      = parseTaskUpdate
        ⟨.absent, .given "d", .null, .given "completed", .absent⟩ ∧
    update_task [⟨1, 1, "t", some "old", "medium", "pending", some 4, 0, 0⟩]
        1 1 (parseTaskUpdate
          ⟨.null, .given "d", .absent, .given "completed", .null⟩) 6
      = update_task [⟨1, 1, "t", some "old", "medium", "pending", some 4, 0, 0⟩]
        1 1 (parseTaskUpdate
          ⟨.absent, .given "d", .null, .given "completed", .absent⟩) 6 :=
  have h := null_field_equals_omitted
    ⟨.null, .given "d", .absent, .given "completed", .null⟩
    ⟨.absent, .given "d", .null, .given "completed", .absent⟩
    (Or.inr (Or.inl ⟨rfl, rfl⟩)) (Or.inl rfl) (Or.inr (Or.inr ⟨rfl, rfl⟩))
    (Or.inl rfl) (Or.inr (Or.inl ⟨rfl, rfl⟩))
  ⟨h.1, h.2.1 [⟨1, 1, "t", some "old", "medium", "pending", some 4, 0, 0⟩]
    1 1 6⟩

end TaskAPI
